import Mathlib

/-
Verification of the FreeCoAP TLS/IPv6 socket library (src/proxy/common/src/tls6sock.c).

The C functions are shallowly embedded as pure Lean functions.  Calls into the
operating system and into the GnuTLS engine are modelled by explicit oracle
inputs: a single call becomes one oracle field, a retry loop consumes a finite
trace (a list) of per-iteration oracle results.  A loop whose trace runs out
before the loop exits is modelled as the value none (the C loop would still be
spinning); every actual exit of a C loop is a some value.  Machine integers
(return codes, byte counts) are modelled as Int, sizes as Nat.
-/

namespace Tls6Sock

/-- Modelled from the spec: the error kinds of the socket layer
(the header defining the SOCK_* codes is not part of the provided sources).
They are represented as distinct non-positive integer codes, matching the
convention of the C source where SOCK_OK is zero, error codes are negative,
and functions returning byte counts reuse the negative codes. -/
def SOCK_OK : Int := 0

def SOCK_ARG_ERROR : Int := -1

def SOCK_OPEN_ERROR : Int := -2

def SOCK_CONFIG_ERROR : Int := -3

def SOCK_BIND_ERROR : Int := -4

def SOCK_LISTEN_ERROR : Int := -5

def SOCK_CONNECT_ERROR : Int := -6

def SOCK_ADDR_ERROR : Int := -7

def SOCK_ACCEPT_ERROR : Int := -8

def SOCK_TLS_CONFIG_ERROR : Int := -9

def SOCK_TLS_CACHE_ERROR : Int := -10

def SOCK_TLS_HANDSHAKE_ERROR : Int := -11

def SOCK_TLS_WARNING_ALERT : Int := -12

def SOCK_TLS_REHANDSHAKE_REFUSED_ERROR : Int := -13

def SOCK_PEER_CERT_VERIFY_ERROR : Int := -14

def SOCK_READ_ERROR : Int := -15

def SOCK_WRITE_ERROR : Int := -16

def SOCK_TIMEOUT : Int := -17

def SOCK_INTR : Int := -18

/-- GnuTLS return code GNUTLS_E_SUCCESS. -/
def GNUTLS_E_SUCCESS : Int := 0

/-- GnuTLS return code GNUTLS_E_AGAIN. -/
def GNUTLS_E_AGAIN : Int := -28

/-- GnuTLS return code GNUTLS_E_INTERRUPTED. -/
def GNUTLS_E_INTERRUPTED : Int := -52

/-- GnuTLS return code GNUTLS_E_WARNING_ALERT_RECEIVED. -/
def GNUTLS_E_WARNING_ALERT_RECEIVED : Int := -16

/-- GnuTLS alert description GNUTLS_A_NO_RENEGOTIATION. -/
def GNUTLS_A_NO_RENEGOTIATION : Int := 100

/-- GnuTLS certificate type GNUTLS_CRT_X509. -/
def GNUTLS_CRT_X509 : Int := 1

/-- GnuTLS verification status bit GNUTLS_CERT_INVALID. -/
def GNUTLS_CERT_INVALID : Nat := 2

/-- GnuTLS verification status bit GNUTLS_CERT_REVOKED. -/
def GNUTLS_CERT_REVOKED : Nat := 32

/-- GnuTLS verification status bit GNUTLS_CERT_SIGNER_NOT_FOUND. -/
def GNUTLS_CERT_SIGNER_NOT_FOUND : Nat := 64

/-- GnuTLS verification status bit GNUTLS_CERT_SIGNER_NOT_CA. -/
def GNUTLS_CERT_SIGNER_NOT_CA : Nat := 128

/-- Address family AF_INET6 (Linux value). -/
def AF_INET6 : Nat := 10

/-- Socket type SOCK_STREAM (Linux value). -/
def SOCK_STREAM : Nat := 1

/-- The role of a connection: the type field of tls6sock_t
(TLS6SOCK_CLIENT or TLS6SOCK_SERVER). -/
inductive SockType
  | CLIENT
  | SERVER
  deriving DecidableEq, Repr

/-- Oracle inputs for one run of tls6sock_verify_peer_cert: results of all
GnuTLS calls made by the function, in source order. -/
structure CertInput where
  /-- result of gnutls_certificate_verify_peers2 -/
  verifyRes : Int
  /-- bitmask written by gnutls_certificate_verify_peers2 -/
  status : Nat
  /-- result of gnutls_certificate_type_get -/
  certType : Int
  /-- result of gnutls_x509_crt_init -/
  crtInitRes : Int
  /-- whether gnutls_certificate_get_peers returned a non-NULL list -/
  certListPresent : Bool
  /-- result of gnutls_x509_crt_import on the first (leaf) certificate -/
  importRes : Int
  /-- result of time(NULL) -/
  currentTime : Int
  /-- result of gnutls_x509_crt_get_expiration_time, -1 when undefined -/
  expirationTime : Int
  /-- result of gnutls_x509_crt_get_activation_time, -1 when undefined -/
  activationTime : Int
  /-- whether the common_name argument is non-NULL -/
  hasCommonName : Bool
  /-- result of gnutls_x509_crt_check_hostname (0 means mismatch) -/
  checkHostnameRes : Int
  deriving DecidableEq, Repr

/-- Embedding of tls6sock_verify_peer_cert: the chain of checks, in source
order, each failing check returning SOCK_PEER_CERT_VERIFY_ERROR. -/
def tls6sock_verify_peer_cert (c : CertInput) : Int :=
  if c.verifyRes ≠ GNUTLS_E_SUCCESS then SOCK_PEER_CERT_VERIFY_ERROR
  else if c.status &&& GNUTLS_CERT_INVALID ≠ 0 then SOCK_PEER_CERT_VERIFY_ERROR
  else if c.status &&& GNUTLS_CERT_SIGNER_NOT_FOUND ≠ 0 then SOCK_PEER_CERT_VERIFY_ERROR
  else if c.status &&& GNUTLS_CERT_SIGNER_NOT_CA ≠ 0 then SOCK_PEER_CERT_VERIFY_ERROR
  else if c.status &&& GNUTLS_CERT_REVOKED ≠ 0 then SOCK_PEER_CERT_VERIFY_ERROR
  else if c.certType ≠ GNUTLS_CRT_X509 then SOCK_PEER_CERT_VERIFY_ERROR
  else if c.crtInitRes ≠ GNUTLS_E_SUCCESS then SOCK_PEER_CERT_VERIFY_ERROR
  else if ¬ c.certListPresent then SOCK_PEER_CERT_VERIFY_ERROR
  else if c.importRes ≠ GNUTLS_E_SUCCESS then SOCK_PEER_CERT_VERIFY_ERROR
  else if c.expirationTime = -1 ∨ c.expirationTime < c.currentTime then
    SOCK_PEER_CERT_VERIFY_ERROR
  else if c.activationTime = -1 ∨ c.activationTime > c.currentTime then
    SOCK_PEER_CERT_VERIFY_ERROR
  else if c.hasCommonName ∧ c.checkHostnameRes = 0 then SOCK_PEER_CERT_VERIFY_ERROR
  else SOCK_OK

/-- Embedding of the loop of tls6sock_read_full.  The list holds the results
of the successive tls6sock_read calls; the second component of the result is
the unconsumed remainder of that list. -/
def tls6sock_read_full_loop (len : Nat) : List Int → Nat → Option Int × List Int
  | [], total =>
      if total < len then (none, []) else (some (total : Int), [])
  | r :: rs, total =>
      if total < len then
        (if r ≤ 0 then (some r, rs)
         else tls6sock_read_full_loop len rs (total + r.toNat))
      else (some (total : Int), r :: rs)

/-- Embedding of tls6sock_read_full over a trace of tls6sock_read results. -/
def tls6sock_read_full (reads : List Int) (len : Nat) : Option Int × List Int :=
  tls6sock_read_full_loop len reads 0

/-- Embedding of the loop of tls6sock_write_full, identical in shape to the
read loop over a trace of tls6sock_write results. -/
def tls6sock_write_full_loop (len : Nat) : List Int → Nat → Option Int × List Int
  | [], total =>
      if total < len then (none, []) else (some (total : Int), [])
  | r :: rs, total =>
      if total < len then
        (if r ≤ 0 then (some r, rs)
         else tls6sock_write_full_loop len rs (total + r.toNat))
      else (some (total : Int), r :: rs)

/-- Embedding of tls6sock_write_full over a trace of tls6sock_write results. -/
def tls6sock_write_full (writes : List Int) (len : Nat) : Option Int × List Int :=
  tls6sock_write_full_loop len writes 0

/-- The first non-positive element of a list of read results. -/
def firstNonPos : List Int → Option Int
  | [] => none
  | r :: rs => if r ≤ 0 then some r else firstNonPos rs

/-- The interface contract of tls6sock_read: a call asking for rem bytes
returns at most rem.  boundedReads reads rem checks this along the prefix of
the trace that the accumulation loop can consume. -/
def boundedReads : List Int → Nat → Bool
  | [], _ => true
  | r :: rs, rem =>
      if rem = 0 then true
      else decide (r ≤ (rem : Int)) && (decide (r ≤ 0) || boundedReads rs (rem - r.toNat))

/-- Outcome of one select readiness wait: positive (ready), zero (timeout),
or -1 with errno EINTR, or -1 with another errno. -/
inductive SelRes
  | ready
  | timeout
  | eintr
  | err
  deriving DecidableEq, Repr

/-- One iteration of the handshake loop: the gnutls_handshake result and, if
the loop reaches it, the select outcome of the same iteration. -/
structure HsStep where
  hs : Int
  sel : SelRes
  deriving DecidableEq, Repr

/-- Embedding of the tls6sock_handshake loop over a trace of per-iteration
GnuTLS and select results. -/
def tls6sock_handshake : List HsStep → Option Int
  | [] => none
  | st :: rest =>
      if st.hs = GNUTLS_E_SUCCESS then some SOCK_OK
      else if st.hs = GNUTLS_E_WARNING_ALERT_RECEIVED then some SOCK_TLS_WARNING_ALERT
      else if st.hs = GNUTLS_E_INTERRUPTED then some SOCK_INTR
      else if st.hs ≠ GNUTLS_E_AGAIN then some SOCK_TLS_HANDSHAKE_ERROR
      else
        match st.sel with
        | SelRes.timeout => some SOCK_TIMEOUT
        | SelRes.eintr => some SOCK_INTR
        | SelRes.err => some SOCK_TLS_HANDSHAKE_ERROR
        | SelRes.ready => tls6sock_handshake rest

/-- Embedding of tls6sock_rehandshake.  Arguments beyond the role are the
oracle: the result of gnutls_rehandshake, the handshake-loop trace and the
pending alert that gnutls_alert_get would report.  The second component of
the result records whether gnutls_rehandshake was invoked. -/
def tls6sock_rehandshake (t : SockType) (rehsRes : Int) (trace : List HsStep)
    (alert : Int) : Option (Int × Bool) :=
  if t = SockType.SERVER then
    if rehsRes = GNUTLS_E_SUCCESS then
      match tls6sock_handshake trace with
      | none => none
      | some r =>
          if r = SOCK_OK then some (SOCK_OK, true)
          else if r = SOCK_INTR then some (SOCK_INTR, true)
          else if r = SOCK_TLS_WARNING_ALERT then
            (if alert = GNUTLS_A_NO_RENEGOTIATION then
               some (SOCK_TLS_REHANDSHAKE_REFUSED_ERROR, true)
             else some (SOCK_TLS_HANDSHAKE_ERROR, true))
          else some (SOCK_TLS_HANDSHAKE_ERROR, true)
    else some (SOCK_TLS_HANDSHAKE_ERROR, true)
  else some (SOCK_TLS_HANDSHAKE_ERROR, false)

/-- One iteration of the close loop: the gnutls_bye result and, if reached,
the raw select return value (the close loop only compares it with zero). -/
structure ByeStep where
  bye : Int
  sel : Int
  deriving DecidableEq, Repr

/-- Embedding of the gnutls_bye loop of tls6sock_close; the result is the
final value of the success flag. -/
def tls6sock_close_loop : List ByeStep → Option Bool
  | [] => none
  | st :: rest =>
      if st.bye = GNUTLS_E_SUCCESS then some true
      else if st.bye = GNUTLS_E_INTERRUPTED then some false
      else if st.bye ≠ GNUTLS_E_AGAIN then some false
      else if st.sel ≤ 0 then some false
      else tls6sock_close_loop rest

/-- Observable outcome of tls6sock_close: the success flag, whether
tls_client_cache_set was called, and whether gnutls_free was called on the
session snapshot. -/
structure CloseOutcome where
  success : Bool
  cached : Bool
  freed : Bool
  deriving DecidableEq, Repr

/-- Embedding of tls6sock_close.  snapshotSize is the size that
gnutls_session_get_data2 would report; the datum is only fetched for a
client, so for a server the local datum keeps its zero initialiser. -/
def tls6sock_close (t : SockType) (snapshotSize : Nat) (trace : List ByeStep) :
    Option CloseOutcome :=
  match tls6sock_close_loop trace with
  | none => none
  | some success =>
      if t = SockType.CLIENT then
        if 0 < snapshotSize then some ⟨success, success, true⟩
        else some ⟨success, false, false⟩
      else some ⟨success, false, false⟩

/-- One addrinfo node of the resolver result, reduced to the fields the code
inspects plus an identifier for the address it carries. -/
structure Candidate where
  ai_family : Nat
  ai_socktype : Nat
  addr : Nat
  deriving DecidableEq, Repr

/-- Embedding of the candidate loop of tls6sock_open.  hd is the first node
of the resolver list: the C code tests list->ai_family and
list->ai_socktype, the head of the list, not the current node.  conn gives
the outcome tls6sock_open_from_sockaddr_in6 would produce for a node; the
second component of the result is the list of nodes actually attempted. -/
def tls6sock_open_loop (hd : Candidate) (conn : Candidate → Int) :
    List Candidate → Int × List Candidate
  | [] => (SOCK_CONNECT_ERROR, [])
  | n :: rest =>
      if hd.ai_family = AF_INET6 ∧ hd.ai_socktype = SOCK_STREAM then
        let r := conn n
        if r = SOCK_OK ∨ r ≠ SOCK_CONNECT_ERROR then (r, [n])
        else
          let p := tls6sock_open_loop hd conn rest
          (p.1, n :: p.2)
      else
        let p := tls6sock_open_loop hd conn rest
        (p.1, p.2)

/-- Embedding of tls6sock_open after the timeout check: res is the resolver
outcome (none when getaddrinfo fails, otherwise the candidate list). -/
def tls6sock_open (res : Option (List Candidate)) (conn : Candidate → Int) :
    Int × List Candidate :=
  match res with
  | none => (SOCK_ADDR_ERROR, [])
  | some [] => (SOCK_CONNECT_ERROR, [])
  | some (hd :: tl) => tls6sock_open_loop hd conn (hd :: tl)

/-- The iteration policy in the words of the claim: try the candidates in
order, stop at the first outcome that is success or any error other than
SOCK_CONNECT_ERROR. -/
def open_try_in_order (conn : Candidate → Int) : List Candidate → Int × List Candidate
  | [] => (SOCK_CONNECT_ERROR, [])
  | c :: rest =>
      let r := conn c
      if r ≠ SOCK_CONNECT_ERROR then (r, [c])
      else
        let p := open_try_in_order conn rest
        (p.1, c :: p.2)

/-- Oracle inputs of tls6sock_open_, one field per external call in source
order; the handshake consumes a trace and certificate verification consumes
a CertInput. -/
structure OpenOracle where
  /-- result of set_non_blocking -/
  nonBlockRes : Int
  /-- result of gnutls_init -/
  initRes : Int
  /-- result of gnutls_priority_set -/
  priorityRes : Int
  /-- result of gnutls_credentials_set -/
  credRes : Int
  /-- size of the datum returned by tls_client_cache_get -/
  cacheSize : Nat
  /-- result of gnutls_session_set_data -/
  setDataRes : Int
  /-- trace of the handshake loop -/
  hsTrace : List HsStep
  /-- oracle of tls6sock_verify_peer_cert -/
  verifyInput : CertInput
  deriving Repr

/-- Observable outcome of tls6sock_open_: the return code, whether close was
called on the descriptor, whether gnutls_init completed, and whether
gnutls_deinit was called. -/
structure OpenResult where
  ret : Int
  socketClosed : Bool
  sessionInit : Bool
  sessionDeinit : Bool
  deriving DecidableEq, Repr

/-- Embedding of tls6sock_open_ (without TLS_CLIENT_AUTH, the default
build): each failure path records the cleanup it performs. -/
def tls6sock_open_ (t : SockType) (o : OpenOracle) : Option OpenResult :=
  if o.nonBlockRes ≠ 0 then some ⟨SOCK_TLS_CONFIG_ERROR, true, false, false⟩
  else if o.initRes ≠ GNUTLS_E_SUCCESS then some ⟨SOCK_TLS_CONFIG_ERROR, true, false, false⟩
  else if o.priorityRes ≠ GNUTLS_E_SUCCESS then some ⟨SOCK_TLS_CONFIG_ERROR, true, true, true⟩
  else if o.credRes ≠ GNUTLS_E_SUCCESS then some ⟨SOCK_TLS_CONFIG_ERROR, true, true, true⟩
  else if t = SockType.CLIENT ∧ o.cacheSize ≠ 0 ∧ o.setDataRes ≠ GNUTLS_E_SUCCESS then
    some ⟨SOCK_TLS_CACHE_ERROR, true, true, true⟩
  else
    match tls6sock_handshake o.hsTrace with
    | none => none
    | some hs =>
        if hs ≠ SOCK_OK then some ⟨hs, true, true, true⟩
        else if t = SockType.CLIENT then
          (if tls6sock_verify_peer_cert o.verifyInput ≠ SOCK_OK then
             some ⟨tls6sock_verify_peer_cert o.verifyInput, true, true, true⟩
           else some ⟨SOCK_OK, false, true, false⟩)
        else some ⟨SOCK_OK, false, true, false⟩

/-- Oracle inputs of tls6sock_open_from_sockaddr_in6: the timeout argument,
the socket and connect results, and the oracle of the tail call to
tls6sock_open_. -/
structure ConnOracle where
  timeout : Int
  /-- descriptor returned by socket, -1 on failure -/
  socketRes : Int
  /-- result of connect -/
  connectRes : Int
  rest : OpenOracle
  deriving Repr

/-- Observable outcome of tls6sock_open_from_sockaddr_in6, also recording
whether a descriptor was opened at all. -/
structure ConnResult where
  ret : Int
  socketOpened : Bool
  socketClosed : Bool
  sessionInit : Bool
  sessionDeinit : Bool
  deriving DecidableEq, Repr

/-- Embedding of tls6sock_open_from_sockaddr_in6: timeout check, socket,
connect, then the tail call to tls6sock_open_ with the client role. -/
def tls6sock_open_from_sockaddr_in6 (o : ConnOracle) : Option ConnResult :=
  if o.timeout < 0 then some ⟨SOCK_ARG_ERROR, false, false, false, false⟩
  else if o.socketRes = -1 then some ⟨SOCK_OPEN_ERROR, false, false, false, false⟩
  else if o.connectRes ≠ 0 then some ⟨SOCK_CONNECT_ERROR, true, true, false, false⟩
  else
    match tls6sock_open_ SockType.CLIENT o.rest with
    | none => none
    | some r => some ⟨r.ret, true, r.socketClosed, r.sessionInit, r.sessionDeinit⟩

/-- The errno value observed after a failed accept call. -/
inductive Errno
  | eintr
  | eagain
  | eother
  deriving DecidableEq, Repr

/-- One iteration of the accept loop: the accept result (descriptor or -1),
the errno in the failure case, and the select outcome if reached. -/
structure AccStep where
  acc : Int
  err : Errno
  sel : SelRes
  deriving DecidableEq, Repr

/-- Exit of the accept loop: an accepted descriptor or an error code. -/
inductive AccOutcome
  | conn (sd : Int)
  | fail (code : Int)
  deriving DecidableEq, Repr

/-- Embedding of the accept loop of tls6ssock_accept; the Nat counts the
accept attempts consumed before the loop exits. -/
def tls6ssock_accept_loop : List AccStep → Option (AccOutcome × Nat)
  | [] => none
  | st :: rest =>
      if 0 < st.acc then some (AccOutcome.conn st.acc, 1)
      else if st.acc = -1 ∧ st.err = Errno.eintr then some (AccOutcome.fail SOCK_INTR, 1)
      else if st.acc = -1 ∧ st.err ≠ Errno.eagain then
        some (AccOutcome.fail SOCK_ACCEPT_ERROR, 1)
      else
        match st.sel with
        | SelRes.timeout => some (AccOutcome.fail SOCK_TIMEOUT, 1)
        | SelRes.eintr => some (AccOutcome.fail SOCK_INTR, 1)
        | SelRes.err => some (AccOutcome.fail SOCK_ACCEPT_ERROR, 1)
        | SelRes.ready =>
            match tls6ssock_accept_loop rest with
            | none => none
            | some (o, n) => some (o, n + 1)

/-- Embedding of tls6ssock_accept: run the accept loop, and on success run
tls6sock_open_ with the server role; the optional SockType component records
the role with which the handshake/verify pipeline was entered (none when it
was not entered). -/
def tls6ssock_accept (trace : List AccStep) (o : OpenOracle) :
    Option (Int × Option SockType) :=
  match tls6ssock_accept_loop trace with
  | none => none
  | some (AccOutcome.fail code, _) => some (code, none)
  | some (AccOutcome.conn _, _) =>
      match tls6sock_open_ SockType.SERVER o with
      | none => none
      | some r => some (r.ret, some SockType.SERVER)

/-- A loop iteration after which the accept loop tries accept again: the
accept attempt did not yield a descriptor, did not fail hard, and the
readiness wait reported the listener ready. -/
def retryStep (st : AccStep) : Bool :=
  decide (st.acc ≤ 0) && (decide (st.acc ≠ -1) || decide (st.err = Errno.eagain))
    && decide (st.sel = SelRes.ready)

/-
Theorems settling the claims.
-/

/-- A certificate input that passes every check and whose expiration time
equals the current time. -/
def certAtExpiration : CertInput := ⟨0, 0, 1, 0, true, 0, 100, 100, 0, false, 0⟩

/-- Claim C1 counterexample: a certificate whose expiration time equals the
current time is accepted by tls6sock_verify_peer_cert, not rejected, so the
validity window of the code is closed at the expiration end, refuting the
half-open interval of the claim. -/
theorem verify_peer_cert_accepts_at_expiration :
    certAtExpiration.currentTime = certAtExpiration.expirationTime ∧
      tls6sock_verify_peer_cert certAtExpiration = SOCK_OK ∧
      SOCK_OK ≠ SOCK_PEER_CERT_VERIFY_ERROR := by
  decide

/-- Claim C1 (amended): peer certificate verification accepts a leaf
certificate with respect to time only when the current time lies within the
closed interval from activation time to expiration time: an undefined (-1)
activation or expiration timestamp, a current time strictly before the
activation time, or a current time strictly after the expiration time yields
SOCK_PEER_CERT_VERIFY_ERROR; and whenever verification succeeds the current
time lies within the closed interval and both timestamps are defined. -/
theorem verify_peer_cert_time_window :
    (∀ c : CertInput,
        (c.expirationTime = -1 ∨ c.activationTime = -1 ∨
            c.currentTime < c.activationTime ∨ c.expirationTime < c.currentTime) →
        tls6sock_verify_peer_cert c = SOCK_PEER_CERT_VERIFY_ERROR) ∧
    (∀ c : CertInput, tls6sock_verify_peer_cert c = SOCK_OK →
        c.expirationTime ≠ -1 ∧ c.activationTime ≠ -1 ∧
          c.activationTime ≤ c.currentTime ∧ c.currentTime ≤ c.expirationTime) := by
  constructor
  · intro c h
    unfold tls6sock_verify_peer_cert
    have hEA : (c.expirationTime = -1 ∨ c.expirationTime < c.currentTime) ∨
        (c.activationTime = -1 ∨ c.activationTime > c.currentTime) := by omega
    rcases hEA with hE | hA
    · rw [if_pos hE]
      repeat rw [ite_self]
    · rw [if_pos hA]
      repeat rw [ite_self]
  · intro c h
    unfold tls6sock_verify_peer_cert at h
    by_cases hE : c.expirationTime = -1 ∨ c.expirationTime < c.currentTime
    · rw [if_pos hE] at h
      repeat rw [ite_self] at h
      exact absurd h (by decide)
    · rw [if_neg hE] at h
      by_cases hA : c.activationTime = -1 ∨ c.activationTime > c.currentTime
      · rw [if_pos hA] at h
        repeat rw [ite_self] at h
        exact absurd h (by decide)
      · refine ⟨?_, ?_, ?_, ?_⟩ <;> omega

/-- Witness for the amended claim C1 at a concrete expired certificate. -/
theorem verify_peer_cert_time_window_witness :
    tls6sock_verify_peer_cert ⟨0, 0, 1, 0, true, 0, 101, 100, 0, false, 0⟩ =
      SOCK_PEER_CERT_VERIFY_ERROR :=
  verify_peer_cert_time_window.1 ⟨0, 0, 1, 0, true, 0, 101, 100, 0, false, 0⟩ (by decide)

/-- Claim C3: during graceful close of a client connection the resumption
snapshot is handed to the session cache if and only if the snapshot is
non-empty and the close loop set the success flag (gnutls_bye reported full
completion); on every other loop exit no ticket is stored, and the snapshot
storage is freed exactly when the snapshot is non-empty, in the success and
in the failure case alike. -/
theorem close_caches_iff_nonempty_and_success
    (snapshotSize : Nat) (trace : List ByeStep) (out : CloseOutcome)
    (h : tls6sock_close SockType.CLIENT snapshotSize trace = some out) :
    (out.cached = true ↔ 0 < snapshotSize ∧ out.success = true) ∧
      (out.freed = true ↔ 0 < snapshotSize) ∧
      (out.success = true ↔ tls6sock_close_loop trace = some true) := by
  unfold tls6sock_close at h
  cases hl : tls6sock_close_loop trace with
  | none => rw [hl] at h; exact absurd h (by simp)
  | some success =>
      rw [hl] at h
      simp only [reduceIte] at h
      split at h <;> rw [Option.some.injEq] at h <;> subst h <;> simp_all

/-- Witness for claim C3 at a concrete successful close with a non-empty
snapshot. -/
theorem close_caches_iff_nonempty_and_success_witness :
    (CloseOutcome.cached ⟨true, true, true⟩ = true ↔
        0 < 1 ∧ CloseOutcome.success ⟨true, true, true⟩ = true) ∧
      (CloseOutcome.freed ⟨true, true, true⟩ = true ↔ 0 < 1) ∧
      (CloseOutcome.success ⟨true, true, true⟩ = true ↔
        tls6sock_close_loop [⟨0, 0⟩] = some true) :=
  close_caches_iff_nonempty_and_success 1 [⟨0, 0⟩] ⟨true, true, true⟩ (by decide)

/-- Claim C5: a rehandshake initiated on a client connection returns
SOCK_TLS_HANDSHAKE_ERROR immediately, for every oracle, without invoking
gnutls_rehandshake (the flag is false) and without entering the handshake
loop (the result does not depend on the trace). -/
theorem rehandshake_client_rejected (rehsRes : Int) (trace : List HsStep) (alert : Int) :
    tls6sock_rehandshake SockType.CLIENT rehsRes trace alert =
      some (SOCK_TLS_HANDSHAKE_ERROR, false) := by
  rfl

/-- Claim C7: a server rehandshake whose inner handshake loop ends with the
warning-alert outcome and whose pending alert is no-renegotiation returns
the distinct SOCK_TLS_REHANDSHAKE_REFUSED_ERROR, different from both the
warning-alert code and the handshake-error code. -/
theorem rehandshake_refused_on_no_renegotiation_alert
    (trace : List HsStep) (alert : Int)
    (hhs : tls6sock_handshake trace = some SOCK_TLS_WARNING_ALERT)
    (halert : alert = GNUTLS_A_NO_RENEGOTIATION) :
    tls6sock_rehandshake SockType.SERVER GNUTLS_E_SUCCESS trace alert =
      some (SOCK_TLS_REHANDSHAKE_REFUSED_ERROR, true) ∧
      SOCK_TLS_REHANDSHAKE_REFUSED_ERROR ≠ SOCK_TLS_WARNING_ALERT ∧
      SOCK_TLS_REHANDSHAKE_REFUSED_ERROR ≠ SOCK_TLS_HANDSHAKE_ERROR := by
  subst halert
  refine ⟨?_, by decide, by decide⟩
  unfold tls6sock_rehandshake
  rw [hhs]
  decide

/-- Witness for claim C7 at a concrete one-step warning-alert trace. -/
theorem rehandshake_refused_on_no_renegotiation_alert_witness :
    tls6sock_rehandshake SockType.SERVER GNUTLS_E_SUCCESS
        [⟨GNUTLS_E_WARNING_ALERT_RECEIVED, SelRes.ready⟩] GNUTLS_A_NO_RENEGOTIATION =
      some (SOCK_TLS_REHANDSHAKE_REFUSED_ERROR, true) :=
  (rehandshake_refused_on_no_renegotiation_alert
      [⟨GNUTLS_E_WARNING_ALERT_RECEIVED, SelRes.ready⟩] GNUTLS_A_NO_RENEGOTIATION
      (by decide) rfl).1

/-- Claim C9: tls6sock_rehandshake never returns the warning-alert code;
when the request itself fails with the server role the result collapses to
SOCK_TLS_HANDSHAKE_ERROR, and likewise when the inner handshake ends with
the warning-alert outcome but the pending alert is not no-renegotiation. -/
theorem rehandshake_never_warning_alert
    (t : SockType) (rehsRes : Int) (trace : List HsStep) (alert : Int)
    (r : Int) (b : Bool)
    (h : tls6sock_rehandshake t rehsRes trace alert = some (r, b)) :
    r ≠ SOCK_TLS_WARNING_ALERT ∧
      (t = SockType.SERVER → rehsRes ≠ GNUTLS_E_SUCCESS →
        r = SOCK_TLS_HANDSHAKE_ERROR) ∧
      (t = SockType.SERVER → rehsRes = GNUTLS_E_SUCCESS →
        tls6sock_handshake trace = some SOCK_TLS_WARNING_ALERT →
        alert ≠ GNUTLS_A_NO_RENEGOTIATION → r = SOCK_TLS_HANDSHAKE_ERROR) := by
  unfold tls6sock_rehandshake at h
  repeat' split at h
  all_goals try (exact Option.noConfusion h)
  all_goals simp only [Option.some.injEq, Prod.mk.injEq] at h
  all_goals obtain ⟨hr, hb⟩ := h
  all_goals subst hr
  all_goals refine ⟨by decide, ?_, ?_⟩ <;> intros <;> first
    | rfl
    | simp_all [SOCK_OK, SOCK_INTR, SOCK_TLS_WARNING_ALERT, SOCK_TLS_HANDSHAKE_ERROR,
        SOCK_TLS_REHANDSHAKE_REFUSED_ERROR, GNUTLS_E_SUCCESS, GNUTLS_A_NO_RENEGOTIATION]

/-- Witness for claim C9 at a concrete server trace with a refusal-unrelated
warning alert. -/
theorem rehandshake_never_warning_alert_witness :
    SOCK_TLS_HANDSHAKE_ERROR ≠ SOCK_TLS_WARNING_ALERT :=
  (rehandshake_never_warning_alert SockType.SERVER GNUTLS_E_SUCCESS
      [⟨GNUTLS_E_WARNING_ALERT_RECEIVED, SelRes.ready⟩] 0
      SOCK_TLS_HANDSHAKE_ERROR true (by decide)).1

/-- Claim C10: for a requested length of zero both accumulation loops return
zero immediately and consume no underlying read or write result; zero is
exactly the return value documented to mean that the peer closed the
connection. -/
theorem read_write_full_zero_length (reads writes : List Int) :
    tls6sock_read_full reads 0 = (some 0, reads) ∧
      tls6sock_write_full writes 0 = (some 0, writes) := by
  constructor
  · cases reads <;> rfl
  · cases writes <;> rfl

/-- Helper: the accumulation loop, entered with total bytes already read,
either completes with exactly len or propagates the first non-positive
element of the trace. -/
theorem tls6sock_read_full_loop_cases (len : Nat) :
    ∀ (reads : List Int) (total : Nat) (v : Int),
      total ≤ len → boundedReads reads (len - total) = true →
      (tls6sock_read_full_loop len reads total).1 = some v →
      v = (len : Int) ∨ (v ≤ 0 ∧ firstNonPos reads = some v) := by
  intro reads
  induction reads with
  | nil =>
      intro total v hle hb h
      rw [tls6sock_read_full_loop] at h
      by_cases htl : total < len
      · rw [if_pos htl] at h
        exact Option.noConfusion h
      · rw [if_neg htl] at h
        rw [Option.some.injEq] at h
        left
        omega
  | cons r rs ih =>
      intro total v hle hb h
      rw [tls6sock_read_full_loop] at h
      by_cases htl : total < len
      · rw [if_pos htl] at h
        by_cases hr : r ≤ 0
        · rw [if_pos hr] at h
          rw [Option.some.injEq] at h
          subst h
          right

          refine ⟨hr, ?_⟩
          rw [firstNonPos, if_pos hr]
        · rw [if_neg hr] at h
          have hlen0 : len - total ≠ 0 := by omega
          rw [boundedReads, if_neg hlen0] at hb
          simp only [Bool.and_eq_true, Bool.or_eq_true, decide_eq_true_eq] at hb
          obtain ⟨hb1, hb2⟩ := hb
          have hb3 : boundedReads rs (len - (total + r.toNat)) = true := by
            rcases hb2 with h0 | hbb
            · omega
            · rw [← Nat.sub_sub]
              exact hbb
          have hfp : firstNonPos (r :: rs) = firstNonPos rs := by
            rw [firstNonPos, if_neg hr]
          rw [hfp]
          exact ih (total + r.toNat) v (by omega) hb3 h
      · rw [if_neg htl] at h
        rw [Option.some.injEq] at h
        left
        omega

/-- Helper: a positive result of the accumulation loop is at least len. -/
theorem tls6sock_read_full_loop_ge (len : Nat) :
    ∀ (reads : List Int) (total : Nat) (v : Int),
      (tls6sock_read_full_loop len reads total).1 = some v → 0 < v →
      (len : Int) ≤ v := by
  intro reads
  induction reads with
  | nil =>
      intro total v h hv
      rw [tls6sock_read_full_loop] at h
      by_cases htl : total < len
      · rw [if_pos htl] at h
        exact Option.noConfusion h
      · rw [if_neg htl] at h
        rw [Option.some.injEq] at h
        omega
  | cons r rs ih =>
      intro total v h hv
      rw [tls6sock_read_full_loop] at h
      by_cases htl : total < len
      · rw [if_pos htl] at h
        by_cases hr : r ≤ 0
        · rw [if_pos hr] at h
          rw [Option.some.injEq] at h
          omega
        · rw [if_neg hr] at h
          exact ih (total + r.toNat) v h hv
      · rw [if_neg htl] at h
        rw [Option.some.injEq] at h
        omega

/-- Claim C2: for every length and every trace of underlying read results
respecting the read contract (a read returns at most as many bytes as it
was asked for, captured by boundedReads), tls6sock_read_full returns either
exactly len or the first non-positive intermediate read result; and even
without the contract a positive return value is never strictly smaller
than len. -/
theorem read_full_all_or_first_nonpositive :
    (∀ (reads : List Int) (len : Nat) (v : Int),
        boundedReads reads len = true →
        (tls6sock_read_full reads len).1 = some v →
        v = (len : Int) ∨ (v ≤ 0 ∧ firstNonPos reads = some v)) ∧
    (∀ (reads : List Int) (len : Nat) (v : Int),
        (tls6sock_read_full reads len).1 = some v → 0 < v → (len : Int) ≤ v) := by
  constructor
  · intro reads len v hb h
    exact tls6sock_read_full_loop_cases len reads 0 v (Nat.zero_le len)
      (by simpa using hb) h
  · intro reads len v h hv
    exact tls6sock_read_full_loop_ge len reads 0 v h hv

/-- Witness for claim C2 at a concrete fragmented delivery of five bytes. -/
theorem read_full_all_or_first_nonpositive_witness :
    (5 : Int) = ((5 : Nat) : Int) ∨ ((5 : Int) ≤ 0 ∧ firstNonPos [2, 3] = some 5) :=
  read_full_all_or_first_nonpositive.1 [2, 3] 5 5 (by decide) (by decide)

/-- Helper: when the head of the resolver list fails the IPv6/stream filter
the loop attempts no candidate at all. -/
theorem tls6sock_open_loop_filter_false (hd : Candidate) (conn : Candidate → Int)
    (hf : ¬(hd.ai_family = AF_INET6 ∧ hd.ai_socktype = SOCK_STREAM)) :
    ∀ l, tls6sock_open_loop hd conn l = (SOCK_CONNECT_ERROR, []) := by
  intro l
  induction l with
  | nil => rfl
  | cons n rest ih => simp only [tls6sock_open_loop, if_neg hf, ih]

/-- Helper: when the head of the resolver list passes the IPv6/stream
filter the loop implements exactly the try-in-order policy. -/
theorem tls6sock_open_loop_filter_true (hd : Candidate) (conn : Candidate → Int)
    (hf : hd.ai_family = AF_INET6 ∧ hd.ai_socktype = SOCK_STREAM) :
    ∀ l, tls6sock_open_loop hd conn l = open_try_in_order conn l := by
  intro l
  induction l with
  | nil => rfl
  | cons n rest ih =>
      rw [tls6sock_open_loop, open_try_in_order, if_pos hf]
      by_cases hc : conn n = SOCK_CONNECT_ERROR
      · rw [if_neg (by rw [hc]; decide), if_neg (by simp [hc]), ih]
      · rw [if_pos (Or.inr hc), if_pos hc]

/-- Helper: the try-in-order policy returns the connect-error code after
attempting every candidate when every attempt fails with it. -/
theorem open_try_in_order_all_fail (conn : Candidate → Int) :
    ∀ l, (∀ c ∈ l, conn c = SOCK_CONNECT_ERROR) →
      open_try_in_order conn l = (SOCK_CONNECT_ERROR, l) := by
  intro l
  induction l with
  | nil => intro _; rfl
  | cons c rest ih =>
      intro hall
      have hc : conn c = SOCK_CONNECT_ERROR := hall c (by simp)
      simp only [open_try_in_order, if_neg (by simp [hc] : ¬ conn c ≠ SOCK_CONNECT_ERROR),
        ih (fun x hx => hall x (by simp [hx]))]

/-- The first resolver candidate in the counterexample: IPv6 and stream. -/
def ipv6Node : Candidate := ⟨10, 1, 0⟩

/-- The second resolver candidate in the counterexample: IPv4 and datagram. -/
def ipv4Node : Candidate := ⟨2, 2, 1⟩

/-- A connect oracle for which every attempt fails with the connect error. -/
def connAllFail : Candidate → Int := fun _ => SOCK_CONNECT_ERROR

/-- Claim C4 counterexample: with a resolver list whose first candidate is
IPv6/stream and whose second is IPv4/datagram, and every connect attempt
failing, the loop attempts the IPv4/datagram candidate as well: the filter
reads the head of the list, not the current node, so connections are not
attempted only for candidates that are themselves IPv6 and stream. -/
theorem open_attempts_non_ipv6_candidate :
    (tls6sock_open (some [ipv6Node, ipv4Node]) connAllFail).2 = [ipv6Node, ipv4Node] ∧
      ipv4Node.ai_family ≠ AF_INET6 ∧ ipv4Node.ai_socktype ≠ SOCK_STREAM := by
  decide

/-- Claim C4 (amended): tls6sock_open returns the address error without any
attempt when resolution fails, and the connect error without any attempt
when the list is empty or when its first candidate is not IPv6/stream (the
family and socket-type filter inspects only the first candidate); when the
first candidate is IPv6/stream it tries every candidate in order, stopping
at the first outcome that is success or any error other than connect
error; and it returns the connect error when every attempt fails with it. -/
theorem open_candidate_iteration :
    (∀ conn : Candidate → Int, tls6sock_open none conn = (SOCK_ADDR_ERROR, [])) ∧
    (∀ conn : Candidate → Int, tls6sock_open (some []) conn = (SOCK_CONNECT_ERROR, [])) ∧
    (∀ (hd : Candidate) (tl : List Candidate) (conn : Candidate → Int),
        ¬(hd.ai_family = AF_INET6 ∧ hd.ai_socktype = SOCK_STREAM) →
        tls6sock_open (some (hd :: tl)) conn = (SOCK_CONNECT_ERROR, [])) ∧
    (∀ (hd : Candidate) (tl : List Candidate) (conn : Candidate → Int),
        hd.ai_family = AF_INET6 ∧ hd.ai_socktype = SOCK_STREAM →
        tls6sock_open (some (hd :: tl)) conn = open_try_in_order conn (hd :: tl)) ∧
    (∀ (l : List Candidate) (conn : Candidate → Int),
        (∀ c ∈ l, conn c = SOCK_CONNECT_ERROR) →
        (tls6sock_open (some l) conn).1 = SOCK_CONNECT_ERROR) := by
  refine ⟨fun conn => rfl, fun conn => rfl, ?_, ?_, ?_⟩
  · intro hd tl conn hf
    exact tls6sock_open_loop_filter_false hd conn hf (hd :: tl)
  · intro hd tl conn hf
    exact tls6sock_open_loop_filter_true hd conn hf (hd :: tl)
  · intro l conn hall
    cases l with
    | nil => rfl
    | cons hd tl =>
        by_cases hf : hd.ai_family = AF_INET6 ∧ hd.ai_socktype = SOCK_STREAM
        · show (tls6sock_open_loop hd conn (hd :: tl)).1 = _
          rw [tls6sock_open_loop_filter_true hd conn hf,
            open_try_in_order_all_fail conn (hd :: tl) hall]
        · show (tls6sock_open_loop hd conn (hd :: tl)).1 = _
          rw [tls6sock_open_loop_filter_false hd conn hf]

/-- Witness for the amended claim C4 at a concrete candidate list whose head
passes the filter. -/
theorem open_candidate_iteration_witness :
    tls6sock_open (some [ipv6Node, ipv4Node]) connAllFail =
      open_try_in_order connAllFail [ipv6Node, ipv4Node] :=
  open_candidate_iteration.2.2.2.1 ipv6Node [ipv4Node] connAllFail (by decide)

/-- Helper: every error return of tls6sock_open_ has closed the descriptor
and has released the session exactly when it was initialised, and the
success return leaves both live. -/
theorem tls6sock_open_unwind (t : SockType) (o : OpenOracle) (res : OpenResult)
    (h : tls6sock_open_ t o = some res) :
    (res.ret ≠ SOCK_OK → res.socketClosed = true ∧ res.sessionDeinit = res.sessionInit) ∧
      (res.ret = SOCK_OK →
        res.socketClosed = false ∧ res.sessionInit = true ∧ res.sessionDeinit = false) := by
  unfold tls6sock_open_ at h
  repeat' split at h
  all_goals try (exact Option.noConfusion h)
  all_goals rw [Option.some.injEq] at h
  all_goals subst h
  all_goals constructor <;> intro hret <;>
    simp_all [SOCK_OK, SOCK_TLS_CONFIG_ERROR, SOCK_TLS_CACHE_ERROR]

/-- Claim C6: on every failure path of connection establishment the
constructor has closed the descriptor it opened and has released the TLS
session exactly when one was initialised, and on success the descriptor and
session are both live: no partially-initialised connection and no leaked
resource escapes on any return. -/
theorem open_failure_paths_unwind :
    (∀ (t : SockType) (o : OpenOracle) (res : OpenResult),
        tls6sock_open_ t o = some res →
        (res.ret ≠ SOCK_OK →
            res.socketClosed = true ∧ res.sessionDeinit = res.sessionInit) ∧
          (res.ret = SOCK_OK →
            res.socketClosed = false ∧ res.sessionInit = true ∧
              res.sessionDeinit = false)) ∧
    (∀ (o : ConnOracle) (res : ConnResult),
        tls6sock_open_from_sockaddr_in6 o = some res →
        (res.ret ≠ SOCK_OK →
            res.socketClosed = res.socketOpened ∧ res.sessionDeinit = res.sessionInit) ∧
          (res.ret = SOCK_OK →
            res.socketOpened = true ∧ res.socketClosed = false ∧
              res.sessionInit = true ∧ res.sessionDeinit = false)) := by
  refine ⟨fun t o res h => tls6sock_open_unwind t o res h, ?_⟩
  intro o res h
  unfold tls6sock_open_from_sockaddr_in6 at h
  repeat' split at h
  all_goals try (exact Option.noConfusion h)
  all_goals rw [Option.some.injEq] at h
  all_goals subst h
  · constructor <;> intro hret <;> simp_all [SOCK_OK, SOCK_ARG_ERROR]
  · constructor <;> intro hret <;> simp_all [SOCK_OK, SOCK_OPEN_ERROR]
  · constructor <;> intro hret <;> simp_all [SOCK_OK, SOCK_CONNECT_ERROR]
  · next r heq =>
      have hw := tls6sock_open_unwind SockType.CLIENT o.rest r heq
      constructor <;> intro hret <;> simp_all

/-- Certificate oracle on which every verification check passes. -/
def certGood : CertInput := ⟨0, 0, 1, 0, true, 0, 50, 100, 10, false, 1⟩

/-- An open oracle on which every setup step succeeds and the handshake
completes on the first iteration. -/
def oracleGood : OpenOracle := ⟨0, 0, 0, 0, 0, 0, [⟨0, SelRes.ready⟩], certGood⟩

/-- Witness for claim C6 at a concrete connect failure. -/
theorem open_failure_paths_unwind_witness :
    ConnResult.socketClosed ⟨SOCK_CONNECT_ERROR, true, true, false, false⟩ =
        ConnResult.socketOpened ⟨SOCK_CONNECT_ERROR, true, true, false, false⟩ ∧
      ConnResult.sessionDeinit ⟨SOCK_CONNECT_ERROR, true, true, false, false⟩ =
        ConnResult.sessionInit ⟨SOCK_CONNECT_ERROR, true, true, false, false⟩ :=
  (open_failure_paths_unwind.2 ⟨30, 5, 1, oracleGood⟩
      ⟨SOCK_CONNECT_ERROR, true, true, false, false⟩ (by decide)).1 (by decide)

/-- Claim C8 counterexample: when the first accept attempt fails with EINTR
the loop returns the interrupted code immediately after a single attempt,
although retrying the accept attempt, as the claim requires for EINTR,
would have accepted the pending connection of the next iteration. -/
theorem accept_eintr_no_retry :
    tls6ssock_accept_loop
        [⟨-1, Errno.eintr, SelRes.ready⟩, ⟨5, Errno.eagain, SelRes.ready⟩] =
      some (AccOutcome.fail SOCK_INTR, 1) ∧
      tls6ssock_accept_loop [⟨5, Errno.eagain, SelRes.ready⟩] =
        some (AccOutcome.conn 5, 1) := by
  decide

/-- Claim C8 (amended): every exit of the accept loop consumes at least one
attempt; all iterations before the exiting one are retries, in which the
accept attempt found no pending connection without failing hard (the EAGAIN
condition) and the readiness wait reported the listener ready; the exiting
iteration yields the accepted descriptor on success, the interrupted code
exactly for EINTR from the accept attempt itself or from the wait, and the
timeout code only for expiry of the wait; the timeout and interrupted codes
are distinct; and on a successful accept the handshake/verify pipeline
tls6sock_open_ runs with the server role before the call returns. -/
theorem accept_loop_behavior :
    (∀ (trace : List AccStep) (res : AccOutcome) (n : Nat),
        tls6ssock_accept_loop trace = some (res, n) →
        ∃ pre st post, trace = pre ++ st :: post ∧ n = pre.length + 1 ∧
          (∀ s ∈ pre, retryStep s = true) ∧
          (∀ sd, res = AccOutcome.conn sd → st.acc = sd ∧ 0 < sd) ∧
          (res = AccOutcome.fail SOCK_TIMEOUT → st.sel = SelRes.timeout) ∧
          (res = AccOutcome.fail SOCK_INTR →
            (st.acc = -1 ∧ st.err = Errno.eintr) ∨ st.sel = SelRes.eintr)) ∧
    (∀ (trace : List AccStep) (o : OpenOracle) (sd : Int) (n : Nat) (r : OpenResult),
        tls6ssock_accept_loop trace = some (AccOutcome.conn sd, n) →
        tls6sock_open_ SockType.SERVER o = some r →
        tls6ssock_accept trace o = some (r.ret, some SockType.SERVER)) ∧
    SOCK_TIMEOUT ≠ SOCK_INTR := by
  refine ⟨?_, ?_, by decide⟩
  · intro trace
    induction trace with
    | nil => intro res n h; exact Option.noConfusion h
    | cons st rest ih =>
        intro res n h
        rw [tls6ssock_accept_loop] at h
        by_cases hacc : 0 < st.acc
        · rw [if_pos hacc, Option.some.injEq, Prod.mk.injEq] at h
          obtain ⟨h1, h2⟩ := h
          subst h1
          subst h2
          refine ⟨[], st, rest, rfl, rfl, by simp, ?_, ?_, ?_⟩
          · intro sd hsd
            rw [AccOutcome.conn.injEq] at hsd
            exact ⟨hsd, by omega⟩
          · intro hcontra
            exact absurd hcontra (by simp)
          · intro hcontra
            exact absurd hcontra (by simp)
        · rw [if_neg hacc] at h
          by_cases hei : st.acc = -1 ∧ st.err = Errno.eintr
          · rw [if_pos hei, Option.some.injEq, Prod.mk.injEq] at h
            obtain ⟨h1, h2⟩ := h
            subst h1
            subst h2
            refine ⟨[], st, rest, rfl, rfl, by simp, ?_, ?_, ?_⟩
            · intro sd hsd
              exact absurd hsd (by simp)
            · intro hcontra
              rw [AccOutcome.fail.injEq] at hcontra
              exact absurd hcontra (by decide)
            · intro _
              exact Or.inl hei
          · rw [if_neg hei] at h
            by_cases hhard : st.acc = -1 ∧ st.err ≠ Errno.eagain
            · rw [if_pos hhard, Option.some.injEq, Prod.mk.injEq] at h
              obtain ⟨h1, h2⟩ := h
              subst h1
              subst h2
              refine ⟨[], st, rest, rfl, rfl, by simp, ?_, ?_, ?_⟩
              · intro sd hsd
                exact absurd hsd (by simp)
              · intro hcontra
                rw [AccOutcome.fail.injEq] at hcontra
                exact absurd hcontra (by decide)
              · intro hcontra
                rw [AccOutcome.fail.injEq] at hcontra
                exact absurd hcontra (by decide)
            · rw [if_neg hhard] at h
              cases hsel : st.sel
              all_goals rw [hsel] at h
              all_goals simp only at h
              ·
                cases hloop : tls6ssock_accept_loop rest with
                | none =>
                    rw [hloop] at h
                    exact Option.noConfusion h
                | some p =>
                    obtain ⟨o', n'⟩ := p
                    rw [hloop] at h
                    simp only [Option.some.injEq, Prod.mk.injEq] at h
                    obtain ⟨h1, h2⟩ := h
                    subst h1
                    subst h2
                    obtain ⟨pre, st', post, hdec, hlen, hretry, hconn, htmo, hintr⟩ :=
                      ih o' n' hloop
                    refine ⟨st :: pre, st', post, by simp [hdec], by simp [hlen], ?_,
                      hconn, htmo, hintr⟩
                    intro s hs
                    rcases List.mem_cons.mp hs with hs1 | hs2
                    · subst hs1
                      simp only [retryStep, hsel, Bool.and_eq_true, Bool.or_eq_true,
                        decide_eq_true_eq]
                      refine ⟨⟨by omega, ?_⟩, by trivial⟩
                      by_cases hm1 : s.acc = -1
                      · right
                        by_cases hea : s.err = Errno.eagain
                        · exact hea
                        · exact absurd ⟨hm1, hea⟩ hhard
                      · exact Or.inl hm1
                    · exact hretry s hs2
              ·
                rw [Option.some.injEq, Prod.mk.injEq] at h
                obtain ⟨h1, h2⟩ := h
                subst h1
                subst h2
                refine ⟨[], st, rest, rfl, rfl, by simp, ?_, ?_, ?_⟩
                · intro sd hsd
                  exact absurd hsd (by simp)
                · intro _
                  exact hsel
                · intro hcontra
                  rw [AccOutcome.fail.injEq] at hcontra
                  exact absurd hcontra (by decide)
              ·
                rw [Option.some.injEq, Prod.mk.injEq] at h
                obtain ⟨h1, h2⟩ := h
                subst h1
                subst h2
                refine ⟨[], st, rest, rfl, rfl, by simp, ?_, ?_, ?_⟩
                · intro sd hsd
                  exact absurd hsd (by simp)
                · intro hcontra
                  rw [AccOutcome.fail.injEq] at hcontra
                  exact absurd hcontra (by decide)
                · intro _
                  exact Or.inr hsel
              ·
                rw [Option.some.injEq, Prod.mk.injEq] at h
                obtain ⟨h1, h2⟩ := h
                subst h1
                subst h2
                refine ⟨[], st, rest, rfl, rfl, by simp, ?_, ?_, ?_⟩
                · intro sd hsd
                  exact absurd hsd (by simp)
                · intro hcontra
                  rw [AccOutcome.fail.injEq] at hcontra
                  exact absurd hcontra (by decide)
                · intro hcontra
                  rw [AccOutcome.fail.injEq] at hcontra
                  exact absurd hcontra (by decide)
  · intro trace o sd n r hloop hopen
    simp [tls6ssock_accept, hloop, hopen]

/-- Witness for the amended claim C8 at a concrete trace with one EAGAIN
retry followed by a successful accept. -/
theorem accept_loop_behavior_witness :
    ∃ pre st post,
      ([⟨-1, Errno.eagain, SelRes.ready⟩, ⟨7, Errno.eagain, SelRes.ready⟩] :
          List AccStep) = pre ++ st :: post ∧ 2 = pre.length + 1 ∧
        (∀ s ∈ pre, retryStep s = true) ∧
        (∀ sd, AccOutcome.conn 7 = AccOutcome.conn sd → st.acc = sd ∧ 0 < sd) ∧
        (AccOutcome.conn 7 = AccOutcome.fail SOCK_TIMEOUT → st.sel = SelRes.timeout) ∧
        (AccOutcome.conn 7 = AccOutcome.fail SOCK_INTR →
          (st.acc = -1 ∧ st.err = Errno.eintr) ∨ st.sel = SelRes.eintr) :=
  accept_loop_behavior.1
    [⟨-1, Errno.eagain, SelRes.ready⟩, ⟨7, Errno.eagain, SelRes.ready⟩]
    (AccOutcome.conn 7) 2 (by decide)

end Tls6Sock
